import Mathlib

/-!
Verification of the AppleGPUInfo utility (src/AppleGPUInfo/main.cpp).

The program queries the IOKit registry for the unique AGXAccelerator entry,
reads the gpu-core-count property and the model string, derives a clock speed
from a static table, prints two lines, and exits.  We embed the program as a
pure function over an environment describing the mocked OS registry: whether
the match dictionary could be built, whether the service query errored, and
the list of matching device entries with their properties.  Every fatal path
of the program goes through print_error_message, which writes to stderr and
calls exit(-1); we model the whole run as a record of exit code, stdout
lines, stderr lines, and a trace of the operations performed, in program
order.
-/

namespace AppleGPUInfo

/-- Declared encoding of a CFNumber, as reported by CFNumberGetType.  The
program only accepts kCFNumberSInt64Type; every other encoding is collapsed
into `otherType` with a code distinguishing them. -/
inductive CFNumberType where
  | sInt64
  | otherType (code : Nat)
deriving DecidableEq

/-- A CFNumber property value: its declared type, its integer value, and
whether CFNumberGetValue succeeds on it. -/
structure CFNumber where
  type : CFNumberType
  value : Int
  retrievable : Bool
deriving DecidableEq

/-- A registry entry for a matched device: its gpu-core-count property and
its model property, each possibly absent. -/
structure Device where
  coreCountProperty : Option CFNumber
  modelProperty : Option (List Char)
deriving DecidableEq

/-- The mocked OS state a run observes: whether IOServiceMatching returns a
non-null dictionary, whether IOServiceGetMatchingServices returns an error,
and the sequence of entries the iterator yields. -/
structure Env where
  matchDictionaryOk : Bool
  serviceError : Bool
  devices : List Device
deriving DecidableEq

/-- CFStringHasPrefix(model, p). -/
def cfStringHasPrefix (s p : List Char) : Bool := p.isPrefixOf s

/-- CFStringHasSuffix(model, p). -/
def cfStringHasSuffix (s p : List Char) : Bool := p.isSuffixOf s

/-- The static clock-speed table of get_gpu_max_clock_speed, lines 76-113 of
main.cpp: classify the model string by prefix, refine by suffix, fall back
to a per-family default, and return 0 for an unrecognized family. -/
def clock_speed_of_model (model : List Char) : Int :=
  if cfStringHasPrefix model "Apple M1".toList then
    if cfStringHasSuffix model "M1".toList then 1278
    else if cfStringHasSuffix model "Pro".toList then 1296
    else if cfStringHasSuffix model "Max".toList then 1296
    else if cfStringHasSuffix model "Ultra".toList then 1296
    else 1278
  else if cfStringHasPrefix model "Apple M2".toList then
    if cfStringHasSuffix model "M2".toList then 1398
    else 1398
  else if cfStringHasPrefix model "Apple M".toList then 1398
  else if cfStringHasPrefix model "Apple A".toList then
    if cfStringHasSuffix model "A14".toList then 1278
    else if cfStringHasSuffix model "A15".toList then 1336
    else if cfStringHasSuffix model "A16".toList then 1336
    else 1336
  else 0

/-- get_gpu_entry, lines 27-44 of main.cpp.  The iterator of a query with
zero matches yields a null handle (modelled as `none`) and the uniqueness
assert still passes; with two or more matches the assert fires. -/
def get_gpu_entry (env : Env) : Except String (Option Device) :=
  if env.matchDictionaryOk = false then
    Except.error "Could not find AGXAccelerator service."
  else if env.serviceError = true then
    Except.error "No objects match AGXAccelerator service."
  else
    match env.devices with
    | [] => Except.ok none
    | [d] => Except.ok (some d)
    | _ :: _ :: _ => Except.error "Found multiple GPUs."

/-- get_gpu_core_count, lines 47-66 of main.cpp.  A property read on a null
entry returns null; then the declared type must be sInt64 and the value
extraction must succeed. -/
def get_gpu_core_count (gpu_entry : Option Device) : Except String Int :=
  match gpu_entry.bind Device.coreCountProperty with
  | none => Except.error "Could not find 'gpu-core-count' property."
  | some num =>
    if num.type = CFNumberType.sInt64 then
      if num.retrievable then Except.ok num.value
      else Except.error "Could not fetch 'gpu-core-count' value."
    else Except.error "'gpu-core-count' not sInt64."

/-- get_gpu_max_clock_speed, lines 69-114 of main.cpp: read the model
property (fatal if absent) and apply the static table. -/
def get_gpu_max_clock_speed (gpu_entry : Option Device) : Except String Int :=
  match gpu_entry.bind Device.modelProperty with
  | none => Except.error "Could not find 'model' property."
  | some model => Except.ok (clock_speed_of_model model)

/-- The operations of a run, in the order they are performed. -/
inductive Event where
  | locate
  | readCoreCount
  | readModel
  | lookupClockSpeed
  | releaseEntry
  | printStdout (line : String)
deriving DecidableEq

/-- The observable outcome of one run of the program. -/
structure RunOutput where
  exitCode : Int
  stdout : List String
  stderr : List String
  events : List Event
deriving DecidableEq

/-- First stdout line of main, line 124 of main.cpp. -/
def coresLine (n : Int) : String := "The GPU has " ++ toString n ++ " cores."

/-- Second stdout line of main, line 125 of main.cpp. -/
def mhzLine (n : Int) : String := "The GPU runs at " ++ toString n ++ " MHz."

/-- main, lines 118-127 of main.cpp.  Each release_assert failure calls
print_error_message, which writes the message to stderr and calls exit(-1)
with nothing yet written to stdout.  On success the entry is released at
line 122, before the two prints at lines 124-125. -/
def run (env : Env) : RunOutput :=
  match get_gpu_entry env with
  | Except.error msg =>
      { exitCode := -1, stdout := [], stderr := [msg], events := [Event.locate] }
  | Except.ok gpu_entry =>
    match get_gpu_core_count gpu_entry with
    | Except.error msg =>
        { exitCode := -1, stdout := [], stderr := [msg],
          events := [Event.locate, Event.readCoreCount] }
    | Except.ok core_count =>
      match get_gpu_max_clock_speed gpu_entry with
      | Except.error msg =>
          { exitCode := -1, stdout := [], stderr := [msg],
            events := [Event.locate, Event.readCoreCount, Event.readModel] }
      | Except.ok max_clock_speed =>
          { exitCode := 0,
            stdout := [coresLine core_count, mhzLine max_clock_speed],
            stderr := [],
            events := [Event.locate, Event.readCoreCount, Event.readModel,
                       Event.lookupClockSpeed, Event.releaseEntry,
                       Event.printStdout (coresLine core_count),
                       Event.printStdout (mhzLine max_clock_speed)] }

/-- The exit status the platform reports for an exit(c) call: the low byte. -/
def observed_exit_status (c : Int) : Int := c % 256

/-- The order of operations the spec claims for a successful run: print the
two lines, then release the device handle. -/
def claimed_success_order (o : RunOutput) : Prop :=
  ∃ a b, o.events = [Event.locate, Event.readCoreCount, Event.readModel,
    Event.lookupClockSpeed, Event.printStdout a, Event.printStdout b,
    Event.releaseEntry]

/-- A device exposing the end-to-end scenario of the spec: core count 10 of
declared type sInt64, model "Apple M2". -/
def goodDevice : Device :=
  { coreCountProperty :=
      some { type := CFNumberType.sInt64, value := 10, retrievable := true },
    modelProperty := some "Apple M2".toList }

/-- An environment whose locator yields exactly goodDevice. -/
def goodEnv : Env :=
  { matchDictionaryOk := true, serviceError := false, devices := [goodDevice] }

/-- A device whose gpu-core-count property has the wrong declared type. -/
def badTypeDevice : Device :=
  { coreCountProperty :=
      some { type := CFNumberType.otherType 3, value := 10, retrievable := true },
    modelProperty := some "Apple M2".toList }

/-- An environment whose unique device has a mistyped core-count property. -/
def badTypeEnv : Env :=
  { matchDictionaryOk := true, serviceError := false, devices := [badTypeDevice] }

/-! ### Helper lemmas -/

lemma hasPrefix_iff {s p : List Char} : cfStringHasPrefix s p = true ↔ p <+: s :=
  List.isPrefixOf_iff_prefix

lemma hasSuffix_iff {s p : List Char} : cfStringHasSuffix s p = true ↔ p <:+ s :=
  List.isSuffixOf_iff_suffix

lemma hasSuffix_excl {s a b : List Char} (hab : ¬ a <:+ b) (hba : ¬ b <:+ a)
    (h : cfStringHasSuffix s a = true) : cfStringHasSuffix s b = false := by
  cases hb : cfStringHasSuffix s b with
  | false => rfl
  | true =>
    rcases List.suffix_or_suffix_of_suffix (hasSuffix_iff.mp h) (hasSuffix_iff.mp hb) with
      hc | hc
    · exact absurd hc hab
    · exact absurd hc hba

lemma hasPrefix_excl {s a b : List Char} (hab : ¬ a <+: b) (hba : ¬ b <+: a)
    (h : cfStringHasPrefix s a = true) : cfStringHasPrefix s b = false := by
  cases hb : cfStringHasPrefix s b with
  | false => rfl
  | true =>
    rcases List.prefix_or_prefix_of_prefix (hasPrefix_iff.mp h) (hasPrefix_iff.mp hb) with
      hc | hc
    · exact absurd hc hab
    · exact absurd hc hba

/-! ### Claims about the clock-speed table -/

/-- Claim C5: the clock-speed table maps each documented model string to its
documented constant: every model string with prefix "Apple M1" and suffix
"Max" maps to 1296, the exact string "Apple M1" maps to 1278, and every
model string with prefix "Apple A" and suffix "A15" maps to 1336. -/
theorem clock_table_documented_constants :
    (∀ s, cfStringHasPrefix s "Apple M1".toList = true →
      cfStringHasSuffix s "Max".toList = true → clock_speed_of_model s = 1296) ∧
    clock_speed_of_model "Apple M1".toList = 1278 ∧
    (∀ s, cfStringHasPrefix s "Apple A".toList = true →
      cfStringHasSuffix s "A15".toList = true → clock_speed_of_model s = 1336) := by
  refine ⟨?_, by decide, ?_⟩
  · intro s hp hsuf
    have h1 : cfStringHasSuffix s "M1".toList = false :=
      hasSuffix_excl (by decide) (by decide) hsuf
    have h2 : cfStringHasSuffix s "Pro".toList = false :=
      hasSuffix_excl (by decide) (by decide) hsuf
    simp only [clock_speed_of_model, hp, h1, h2, hsuf]
    simp
  · intro s hp hsuf
    have hm1 : cfStringHasPrefix s "Apple M1".toList = false :=
      hasPrefix_excl (by decide) (by decide) hp
    have hm2 : cfStringHasPrefix s "Apple M2".toList = false :=
      hasPrefix_excl (by decide) (by decide) hp
    have hm : cfStringHasPrefix s "Apple M".toList = false :=
      hasPrefix_excl (by decide) (by decide) hp
    have h14 : cfStringHasSuffix s "A14".toList = false :=
      hasSuffix_excl (by decide) (by decide) hsuf
    simp only [clock_speed_of_model, hp, hm1, hm2, hm, h14, hsuf]
    simp

/-- Witness for C5 at the concrete models "Apple M1 Max" and "Apple A15". -/
theorem clock_table_documented_constants_witness :
    clock_speed_of_model "Apple M1 Max".toList = 1296 ∧
    clock_speed_of_model "Apple A15".toList = 1336 :=
  ⟨clock_table_documented_constants.1 "Apple M1 Max".toList (by decide) (by decide),
   clock_table_documented_constants.2.2 "Apple A15".toList (by decide) (by decide)⟩

/-- Claim C6: for every model string whose family prefix is recognized but
whose suffix matches no listed tier, the table returns that family's
fallback default (1278 for M1, 1398 for M2, 1398 for a generic M family
string, 1336 for A) instead of failing. -/
theorem clock_table_family_fallback :
    (∀ s, cfStringHasPrefix s "Apple M1".toList = true →
      cfStringHasSuffix s "M1".toList = false →
      cfStringHasSuffix s "Pro".toList = false →
      cfStringHasSuffix s "Max".toList = false →
      cfStringHasSuffix s "Ultra".toList = false →
      clock_speed_of_model s = 1278) ∧
    (∀ s, cfStringHasPrefix s "Apple M2".toList = true →
      cfStringHasSuffix s "M2".toList = false →
      clock_speed_of_model s = 1398) ∧
    (∀ s, cfStringHasPrefix s "Apple M".toList = true →
      cfStringHasPrefix s "Apple M1".toList = false →
      cfStringHasPrefix s "Apple M2".toList = false →
      clock_speed_of_model s = 1398) ∧
    (∀ s, cfStringHasPrefix s "Apple A".toList = true →
      cfStringHasSuffix s "A14".toList = false →
      cfStringHasSuffix s "A15".toList = false →
      cfStringHasSuffix s "A16".toList = false →
      clock_speed_of_model s = 1336) := by
  refine ⟨?_, ?_, ?_, ?_⟩
  · intro s hp h1 h2 h3 h4
    simp only [clock_speed_of_model, hp, h1, h2, h3, h4]
    simp
  · intro s hp h1
    have hm1 : cfStringHasPrefix s "Apple M1".toList = false :=
      hasPrefix_excl (by decide) (by decide) hp
    simp only [clock_speed_of_model, hm1, hp, h1]
    simp
  · intro s hp hm1 hm2
    simp only [clock_speed_of_model, hm1, hm2, hp]
    simp
  · intro s hp h1 h2 h3
    have hm1 : cfStringHasPrefix s "Apple M1".toList = false :=
      hasPrefix_excl (by decide) (by decide) hp
    have hm2 : cfStringHasPrefix s "Apple M2".toList = false :=
      hasPrefix_excl (by decide) (by decide) hp
    have hm : cfStringHasPrefix s "Apple M".toList = false :=
      hasPrefix_excl (by decide) (by decide) hp
    simp only [clock_speed_of_model, hm1, hm2, hm, hp, h1, h2, h3]
    simp

/-- Witness for C6 at one unrecognized-suffix model per family. -/
theorem clock_table_family_fallback_witness :
    clock_speed_of_model "Apple M1 Foo".toList = 1278 ∧
    clock_speed_of_model "Apple M2 Foo".toList = 1398 ∧
    clock_speed_of_model "Apple M3".toList = 1398 ∧
    clock_speed_of_model "Apple A17".toList = 1336 :=
  ⟨clock_table_family_fallback.1 "Apple M1 Foo".toList (by decide) (by decide)
     (by decide) (by decide) (by decide),
   clock_table_family_fallback.2.1 "Apple M2 Foo".toList (by decide) (by decide),
   clock_table_family_fallback.2.2.1 "Apple M3".toList (by decide) (by decide)
     (by decide),
   clock_table_family_fallback.2.2.2 "Apple A17".toList (by decide) (by decide)
     (by decide) (by decide)⟩

/-- Claim C7: for every model string that matches none of the recognized
family prefixes ("Apple M1", "Apple M2", "Apple M", "Apple A"), the table
returns 0 instead of failing. -/
theorem clock_table_unknown_family (s : List Char)
    (h1 : cfStringHasPrefix s "Apple M1".toList = false)
    (h2 : cfStringHasPrefix s "Apple M2".toList = false)
    (h3 : cfStringHasPrefix s "Apple M".toList = false)
    (h4 : cfStringHasPrefix s "Apple A".toList = false) :
    clock_speed_of_model s = 0 := by
  simp only [clock_speed_of_model, h1, h2, h3, h4]
  simp

/-- Witness for C7 at a model string of an entirely different vendor. -/
theorem clock_table_unknown_family_witness :
    clock_speed_of_model "Intel UHD Graphics".toList = 0 :=
  clock_table_unknown_family "Intel UHD Graphics".toList (by decide) (by decide)
    (by decide) (by decide)

/-- Claim C10: the clock-speed table is total and its result always lies in
the set of constants 0, 1278, 1296, 1336, 1398; it is never negative, and
every model string with prefix "Apple M2" yields 1398 regardless of its
suffix. -/
theorem clock_table_total_range (s : List Char) :
    (clock_speed_of_model s = 0 ∨ clock_speed_of_model s = 1278 ∨
     clock_speed_of_model s = 1296 ∨ clock_speed_of_model s = 1336 ∨
     clock_speed_of_model s = 1398) ∧
    0 ≤ clock_speed_of_model s ∧
    (cfStringHasPrefix s "Apple M2".toList = true →
      clock_speed_of_model s = 1398) := by
  refine ⟨?_, ?_, ?_⟩
  · unfold clock_speed_of_model
    split_ifs <;> norm_num
  · unfold clock_speed_of_model
    split_ifs <;> norm_num
  · intro h2
    have h1 : cfStringHasPrefix s "Apple M1".toList = false :=
      hasPrefix_excl (by decide) (by decide) h2
    simp only [clock_speed_of_model, h1, h2]
    simp

/-- Witness for C10 at the model "Apple M2 Pro". -/
theorem clock_table_total_range_witness :
    0 ≤ clock_speed_of_model "Apple M2 Pro".toList ∧
    clock_speed_of_model "Apple M2 Pro".toList = 1398 :=
  ⟨(clock_table_total_range "Apple M2 Pro".toList).2.1,
   (clock_table_total_range "Apple M2 Pro".toList).2.2 (by decide)⟩

/-! ### Run-level helper lemmas -/

lemma run_entry_error {env : Env} {msg : String}
    (he : get_gpu_entry env = Except.error msg) :
    run env = { exitCode := -1, stdout := [], stderr := [msg],
                events := [Event.locate] } := by
  simp [run, he]

lemma run_core_error {env : Env} {gpu_entry : Option Device} {msg : String}
    (he : get_gpu_entry env = Except.ok gpu_entry)
    (hc : get_gpu_core_count gpu_entry = Except.error msg) :
    run env = { exitCode := -1, stdout := [], stderr := [msg],
                events := [Event.locate, Event.readCoreCount] } := by
  simp [run, he, hc]

lemma run_model_error {env : Env} {gpu_entry : Option Device} {cc : Int}
    {msg : String}
    (he : get_gpu_entry env = Except.ok gpu_entry)
    (hc : get_gpu_core_count gpu_entry = Except.ok cc)
    (hm : get_gpu_max_clock_speed gpu_entry = Except.error msg) :
    run env = { exitCode := -1, stdout := [], stderr := [msg],
                events := [Event.locate, Event.readCoreCount, Event.readModel] } := by
  simp [run, he, hc, hm]

lemma run_success {env : Env} {gpu_entry : Option Device} {cc clk : Int}
    (he : get_gpu_entry env = Except.ok gpu_entry)
    (hc : get_gpu_core_count gpu_entry = Except.ok cc)
    (hm : get_gpu_max_clock_speed gpu_entry = Except.ok clk) :
    run env = { exitCode := 0,
                stdout := [coresLine cc, mhzLine clk],
                stderr := [],
                events := [Event.locate, Event.readCoreCount, Event.readModel,
                           Event.lookupClockSpeed, Event.releaseEntry,
                           Event.printStdout (coresLine cc),
                           Event.printStdout (mhzLine clk)] } := by
  simp [run, he, hc, hm]

lemma entry_ok_of_single {env : Env} {d : Device}
    (hm : env.matchDictionaryOk = true) (hs : env.serviceError = false)
    (hd : env.devices = [d]) : get_gpu_entry env = Except.ok (some d) := by
  simp [get_gpu_entry, hm, hs, hd]

/-! ### Claims about whole runs -/

/-- Claim C1: when the locator yields exactly one device handle whose
core-count property has declared type sInt64 and value 10 and whose model
is "Apple M2", the run writes exactly the two stdout lines about 10 cores
and 1398 MHz and exits with status 0. -/
theorem end_to_end_success (env : Env) (d : Device)
    (hm : env.matchDictionaryOk = true) (hs : env.serviceError = false)
    (hd : env.devices = [d])
    (hc : d.coreCountProperty =
      some { type := CFNumberType.sInt64, value := 10, retrievable := true })
    (hmod : d.modelProperty = some "Apple M2".toList) :
    (run env).stdout = ["The GPU has 10 cores.", "The GPU runs at 1398 MHz."] ∧
    (run env).exitCode = 0 := by
  have he := entry_ok_of_single hm hs hd
  have hcc : get_gpu_core_count (some d) = Except.ok 10 := by
    simp [get_gpu_core_count, hc]
  have hms : get_gpu_max_clock_speed (some d) = Except.ok 1398 := by
    simp only [get_gpu_max_clock_speed, Option.bind, hmod]
    rfl
  rw [run_success he hcc hms]
  exact ⟨by decide, rfl⟩

/-- Witness for C1 at the concrete environment goodEnv. -/
theorem end_to_end_success_witness :
    (run goodEnv).stdout =
      ["The GPU has 10 cores.", "The GPU runs at 1398 MHz."] ∧
    (run goodEnv).exitCode = 0 :=
  end_to_end_success goodEnv goodDevice rfl rfl rfl rfl rfl

/-- Claim C2: when the device-registry query reports zero matching devices,
the run terminates with a fatal error, a message on stderr and a nonzero
exit code, and produces no stdout output. -/
theorem zero_devices_fatal (env : Env)
    (hm : env.matchDictionaryOk = true) (hs : env.serviceError = false)
    (hd : env.devices = []) :
    (run env).exitCode ≠ 0 ∧ (run env).stdout = [] ∧ (run env).stderr ≠ [] := by
  have he : get_gpu_entry env = Except.ok none := by
    simp [get_gpu_entry, hm, hs, hd]
  have hcc : get_gpu_core_count none =
      Except.error "Could not find 'gpu-core-count' property." := rfl
  rw [run_core_error he hcc]
  exact ⟨by decide, rfl, by simp⟩

/-- Witness for C2 at a concrete environment with an empty device list. -/
theorem zero_devices_fatal_witness :
    (run { matchDictionaryOk := true, serviceError := false,
           devices := [] }).exitCode ≠ 0 ∧
    (run { matchDictionaryOk := true, serviceError := false,
           devices := [] }).stdout = [] ∧
    (run { matchDictionaryOk := true, serviceError := false,
           devices := [] }).stderr ≠ [] :=
  zero_devices_fatal _ rfl rfl rfl

/-- Claim C3: when the device-registry query reports two or more matching
devices, the run terminates with a fatal error, a message on stderr and a
nonzero exit code, and produces no stdout output. -/
theorem multiple_devices_fatal (env : Env) (d1 d2 : Device) (rest : List Device)
    (hm : env.matchDictionaryOk = true) (hs : env.serviceError = false)
    (hd : env.devices = d1 :: d2 :: rest) :
    (run env).exitCode ≠ 0 ∧ (run env).stdout = [] ∧
    (run env).stderr = ["Found multiple GPUs."] := by
  have he : get_gpu_entry env = Except.error "Found multiple GPUs." := by
    simp [get_gpu_entry, hm, hs, hd]
  rw [run_entry_error he]
  exact ⟨by decide, rfl, rfl⟩

/-- Witness for C3 at a concrete environment with two devices. -/
theorem multiple_devices_fatal_witness :
    (run { matchDictionaryOk := true, serviceError := false,
           devices := [goodDevice, goodDevice] }).exitCode ≠ 0 ∧
    (run { matchDictionaryOk := true, serviceError := false,
           devices := [goodDevice, goodDevice] }).stdout = [] ∧
    (run { matchDictionaryOk := true, serviceError := false,
           devices := [goodDevice, goodDevice] }).stderr =
      ["Found multiple GPUs."] :=
  multiple_devices_fatal _ goodDevice goodDevice [] rfl rfl rfl

/-- Claim C4 counterexample: in the successful run on goodEnv the device
handle is released before the two stdout lines are printed, so the claimed
order locate, read core count, read model, table lookup, print both lines,
then release does not hold. -/
theorem release_print_order_counterexample :
    (run goodEnv).exitCode = 0 ∧ ¬ claimed_success_order (run goodEnv) := by
  constructor
  · decide
  · intro h
    rcases h with ⟨a, b, hab⟩
    rw [run_success (entry_ok_of_single rfl rfl rfl)
      (rfl : get_gpu_core_count (some goodDevice) = Except.ok 10)
      (rfl : get_gpu_max_clock_speed (some goodDevice) = Except.ok 1398)]
      at hab
    simp at hab

/-- Claim C4 as amended: in every successful run the operations occur in
the order locate the device entry, read the core count, read the model
string, look up the clock speed in the table, release the device handle,
and then print the two output lines before exiting. -/
theorem success_event_order (env : Env) (h : (run env).exitCode = 0) :
    ∃ a b, (run env).events =
      [Event.locate, Event.readCoreCount, Event.readModel,
       Event.lookupClockSpeed, Event.releaseEntry,
       Event.printStdout a, Event.printStdout b] := by
  rcases he : get_gpu_entry env with msg | gpu_entry
  · rw [run_entry_error he] at h
    simp at h
  · rcases hc : get_gpu_core_count gpu_entry with msg | cc
    · rw [run_core_error he hc] at h
      simp at h
    · rcases hmc : get_gpu_max_clock_speed gpu_entry with msg | clk
      · rw [run_model_error he hc hmc] at h
        simp at h
      · exact ⟨coresLine cc, mhzLine clk, by rw [run_success he hc hmc]⟩

/-- Witness for the amended C4 at the concrete environment goodEnv. -/
theorem success_event_order_witness :
    (run goodEnv).exitCode = 0 ∧
    ∃ a b, (run goodEnv).events =
      [Event.locate, Event.readCoreCount, Event.readModel,
       Event.lookupClockSpeed, Event.releaseEntry,
       Event.printStdout a, Event.printStdout b] :=
  ⟨by decide, success_event_order goodEnv (by decide)⟩

/-- Claim C8: when the unique device's core-count property exists but its
declared type is not sInt64, the run terminates with a fatal error before
any clock-speed logic: the model property is never read, no table lookup
occurs, and no stdout is produced. -/
theorem wrong_type_fatal (env : Env) (d : Device) (num : CFNumber)
    (hm : env.matchDictionaryOk = true) (hs : env.serviceError = false)
    (hd : env.devices = [d]) (hc : d.coreCountProperty = some num)
    (ht : num.type ≠ CFNumberType.sInt64) :
    (run env).exitCode ≠ 0 ∧
    (run env).stderr = ["'gpu-core-count' not sInt64."] ∧
    (run env).stdout = [] ∧
    Event.readModel ∉ (run env).events ∧
    Event.lookupClockSpeed ∉ (run env).events := by
  have he := entry_ok_of_single hm hs hd
  have hcc : get_gpu_core_count (some d) =
      Except.error "'gpu-core-count' not sInt64." := by
    simp [get_gpu_core_count, hc, ht]
  rw [run_core_error he hcc]
  exact ⟨by decide, rfl, rfl, by decide, by decide⟩

/-- Witness for C8 at the concrete environment badTypeEnv. -/
theorem wrong_type_fatal_witness :
    (run badTypeEnv).exitCode ≠ 0 ∧
    (run badTypeEnv).stderr = ["'gpu-core-count' not sInt64."] ∧
    (run badTypeEnv).stdout = [] ∧
    Event.readModel ∉ (run badTypeEnv).events ∧
    Event.lookupClockSpeed ∉ (run badTypeEnv).events :=
  wrong_type_fatal badTypeEnv badTypeDevice
    { type := CFNumberType.otherType 3, value := 10, retrievable := true }
    rfl rfl rfl rfl (by decide)

/-- Claim C9: every failing run exits through print_error_message with exit
code -1, observed as 255 after platform truncation, carries a message on
stderr, and produces no stdout; in particular no failure cause is
distinguished by exit code. -/
theorem fatal_policy (env : Env) (h : (run env).exitCode ≠ 0) :
    (run env).exitCode = -1 ∧
    observed_exit_status (run env).exitCode = 255 ∧
    (run env).stdout = [] ∧ (run env).stderr ≠ [] := by
  rcases he : get_gpu_entry env with msg | gpu_entry
  · rw [run_entry_error he]
    exact ⟨rfl, by show observed_exit_status (-1) = 255; decide, rfl, by simp⟩
  · rcases hc : get_gpu_core_count gpu_entry with msg | cc
    · rw [run_core_error he hc]
      exact ⟨rfl, by show observed_exit_status (-1) = 255; decide, rfl, by simp⟩
    · rcases hmc : get_gpu_max_clock_speed gpu_entry with msg | clk
      · rw [run_model_error he hc hmc]
        exact ⟨rfl, by show observed_exit_status (-1) = 255; decide, rfl, by simp⟩
      · rw [run_success he hc hmc] at h
        exact absurd rfl h

/-- Witness for C9 at a concrete environment whose match query fails. -/
theorem fatal_policy_witness :
    (run { matchDictionaryOk := false, serviceError := false,
           devices := [] }).exitCode = -1 ∧
    observed_exit_status
      (run { matchDictionaryOk := false, serviceError := false,
             devices := [] }).exitCode = 255 ∧
    (run { matchDictionaryOk := false, serviceError := false,
           devices := [] }).stdout = [] ∧
    (run { matchDictionaryOk := false, serviceError := false,
           devices := [] }).stderr ≠ [] :=
  fatal_policy _ (by decide)

end AppleGPUInfo
